import Mathlib

/-!
Verification development for the container-lifecycle + database-logging
pipeline of the playwright API test-automation repository.

The TypeScript sources embedded here:
  - src/config/database.config.ts   (DatabaseConfigManager)
  - src/services/testcontainer.manager.ts
      (TestContainerManager, DatabaseManager)
  - src/helpers/api-client.base.ts  (ApiClientBase)
  - src/helpers/user.client.ts      (UserClient)

Modelling conventions:
  - `process.env` is an explicit `Env` record of `Option String` fields
    (a `none` field is an unset variable).
  - Mutable singleton state (the pg pool handle, the `isInitialized`
    boolean, the started-container handle) is threaded explicitly.
  - External effects (docker CLI invocations, pg queries, HTTP fetches)
    are oracles passed as parameters: each oracle value fixes the outcome
    of one kind of external call, so a theorem quantifying over oracles
    quantifies over all behaviours of the external world.
  - JS exceptions are explicit: an operation that can throw returns the
    post-state together with an `Option` error (the thrown value), and a
    `try/catch` in the source becomes a `match` on that error component.
  - JSONB columns are modelled at the JSON-value level: inserting the
    string `JSON.stringify v` into a JSONB column and reading it back
    yields a JSON value equivalent to `v`, so the stored payload is
    represented by the JSON value itself.
-/

/-! ## JS string primitives (trim / split / includes / regex fragment) -/

/-- The ASCII whitespace characters relevant to `String.prototype.trim`
for the strings handled here. -/
def jsWhitespace (c : Char) : Bool :=
  c = ' ' || c = '\t' || c = '\n' || c = '\r'

/-- Character-list trim: drop whitespace from both ends. -/
def charTrim (cs : List Char) : List Char :=
  ((cs.dropWhile jsWhitespace).reverse.dropWhile jsWhitespace).reverse

/-- `s.trim()` of JS. -/
def jsTrim (s : String) : String :=
  String.mk (charTrim s.data)

/-- `s.split(sep)` of JS for a single-character separator:
always returns at least one (possibly empty) group. -/
def splitChar (sep : Char) : List Char → List (List Char)
  | [] => [[]]
  | c :: rest =>
    match splitChar sep rest with
    | [] => [[]]
    | g :: gs => if c = sep then [] :: g :: gs else (c :: g) :: gs

/-- Does `cs` start with `pat`? -/
def listStartsWith : List Char → List Char → Bool
  | _, [] => true
  | [], _ :: _ => false
  | a :: as, b :: bs => a = b && listStartsWith as bs

/-- `hay.includes(pat)` of JS (substring search). -/
def listHasSub (pat : List Char) : List Char → Bool
  | [] => listStartsWith [] pat
  | c :: rest => listStartsWith (c :: rest) pat || listHasSub pat rest

/-- `s.includes(pat)` of JS. -/
def jsIncludes (hay pat : String) : Bool :=
  listHasSub pat.data hay.data

/-- Decimal digit run to a natural number. -/
def digitsToNat (ds : List Char) : Nat :=
  ds.foldl (fun acc c => acc * 10 + (c.toNat - 48)) 0

/-- `parseInt(s, 10)` of JS restricted to the non-negative decimal inputs
this system feeds it: leading whitespace skipped, then a maximal digit
run; no digits at all is `NaN`, modelled as `none`. -/
def jsParseIntNat (s : String) : Option Nat :=
  match (jsTrim s).data.takeWhile Char.isDigit with
  | [] => none
  | ds => some (digitsToNat ds)

/-! ## Environment and Config Resolver (database.config.ts) -/

/-- The `process.env` variables this system reads or writes. -/
structure Env where
  DB_HOST : Option String := none
  DB_PORT : Option String := none
  DB_NAME : Option String := none
  DB_USER : Option String := none
  DB_PASSWORD : Option String := none
  DB_SCHEMA : Option String := none
  DB_INITIALIZED : Option String := none
  KEEP_CONTAINER_RUNNING : Option String := none
  LOG_API_CALLS : Option String := none
  DEBUG : Option String := none
deriving DecidableEq

/-- An environment with every variable unset. -/
def Env.empty : Env := {}

/-- `x || d` of JS for a possibly-unset string: an unset or empty-string
variable falls back to the default. -/
def jsOrDefault (x : Option String) (d : String) : String :=
  match x with
  | some s => if s = "" then d else s
  | none => d

/-- The connection descriptor of `database.config.ts`.
`port` is `none` when `parseInt` produced `NaN`. -/
structure DatabaseConfig where
  host : String
  port : Option Nat
  database : String
  user : String
  password : String
  schema : String
deriving DecidableEq

/-- `DatabaseConfigManager.loadConfig` / `getConfig`: recomputed from the
environment on every call. -/
def loadConfig (env : Env) : DatabaseConfig :=
  { host := jsOrDefault env.DB_HOST "localhost"
  , port := jsParseIntNat (jsOrDefault env.DB_PORT "5432")
  , database := jsOrDefault env.DB_NAME "api_test_db"
  , user := jsOrDefault env.DB_USER "testuser"
  , password := jsOrDefault env.DB_PASSWORD "testpass"
  , schema := jsOrDefault env.DB_SCHEMA "api_logs" }

/-! ## JSON payloads -/

/-- JSON values, the denotation of a serialized header/body payload. -/
inductive Json where
  | null : Json
  | bool : Bool → Json
  | num : Int → Json
  | str : String → Json
  | arr : List Json → Json
  | obj : List (String × Json) → Json

/-- A JS value handed to `JSON.stringify`: either a value with a JSON
denotation, or one on which `JSON.stringify` throws (circular
references). -/
inductive JsVal where
  | val : Json → JsVal
  | circular : JsVal

/-- The placeholder `stringifyJson` stores when `JSON.stringify` throws:
`JSON.stringify({ error: 'Failed to stringify object' })`. -/
def stringifyFallback : Json :=
  Json.obj [("error", Json.str "Failed to stringify object")]

/-- `stringifyJson` of `DatabaseManager.logApiCall`: `null`/`undefined`
map to SQL NULL; a serializable value maps to its JSON denotation; a
value `JSON.stringify` throws on maps to the fallback placeholder. -/
def serializePayload : Option JsVal → Option Json
  | none => none
  | some (JsVal.val j) => some j
  | some JsVal.circular => some stringifyFallback

/-! ## DatabaseManager (connection pool manager) -/

/-- A constructed `pg.Pool` handle, carrying the config it was built
from. Construction itself never fails. -/
structure Pool where
  config : DatabaseConfig
deriving DecidableEq

/-- The mutable fields of the `DatabaseManager` singleton. -/
structure DBState where
  pool : Option Pool
  isInitialized : Bool
deriving DecidableEq

/-- The singleton's state at process start. -/
def DBState.initial : DBState := ⟨none, false⟩

/-- Errors `DatabaseManager.initialize` can propagate. -/
inductive InitError where
  | connectionFailed : InitError
  | schemaFailed : InitError
deriving DecidableEq

/-- `DatabaseManager.initialize()`. Oracles: `connOk` is the outcome of
the `SELECT 1` connectivity probe, `schemaOk` the outcome of client
acquisition plus the CREATE SCHEMA / TABLE / INDEX statements of
`createSchemaAndTables`. The returned `Option InitError` is the thrown
error; the returned state is the singleton state after the call either
way. Note the source sets `this.isInitialized = true` before calling
`createSchemaAndTables` (whose `getClient` guard requires it). -/
def DatabaseManager.initialize (env : Env) (connOk schemaOk : Bool)
    (s : DBState) : DBState × Option InitError :=
  if s.isInitialized then (s, none)
  else
    let config := loadConfig env
    let s1 : DBState := { s with pool := some ⟨config⟩ }
    if !connOk then (s1, some InitError.connectionFailed)
    else
      let s2 : DBState := { s1 with isInitialized := true }
      if !schemaOk then (s2, some InitError.schemaFailed)
      else (s2, none)

/-- `DatabaseManager.reinitializePool()`: silently rebuilds the pool from
the current config and marks the manager initialized; the defensive
try/catch never fires because pool construction does not throw. -/
def DatabaseManager.reinitializePool (env : Env) (s : DBState) : DBState :=
  if s.isInitialized then s
  else { pool := some ⟨loadConfig env⟩, isInitialized := true }

/-- `DatabaseManager.isReady()`: reports readiness, with the side effect
that an uninitialized manager observing `DB_INITIALIZED === 'true'`
first re-creates its pool via `reinitializePool`. -/
def DatabaseManager.isReady (env : Env) (s : DBState) : Bool × DBState :=
  let s' :=
    if !s.isInitialized && env.DB_INITIALIZED = some "true"
    then DatabaseManager.reinitializePool env s
    else s
  (s'.isInitialized && s'.pool.isSome, s')

/-- `DatabaseManager.close()`: ends the pool if one exists, clears it and
marks the manager uninitialized; a no-op when already closed. -/
def DatabaseManager.close (s : DBState) : DBState :=
  if s.pool.isSome then { pool := none, isInitialized := false } else s

/-! ## logApiCall -/

/-- The input record of `DatabaseManager.logApiCall`. -/
structure ApiCallLogEntry where
  testName : Option String
  endpoint : String
  method : String
  requestHeaders : Option JsVal
  requestBody : Option JsVal
  responseStatus : Option Int
  responseHeaders : Option JsVal
  responseBody : Option JsVal
  executionTimeMs : Option Int

/-- A row of the `api_logs` table as stored (JSONB columns at the
JSON-value level; `id` and `created_at` are server-generated and not
modelled). -/
structure ApiLogRow where
  test_name : Option String
  endpoint : String
  method : String
  request_headers : Option Json
  request_body : Option Json
  response_status : Option Int
  response_headers : Option Json
  response_body : Option Json
  execution_time_ms : Option Int

/-- `x || null` of JS on an optional string: the empty string is falsy
and becomes NULL. -/
def jsOrNullStr (x : Option String) : Option String :=
  match x with
  | some s => if s = "" then none else some s
  | none => none

/-- `x || null` of JS on an optional number: `0` is falsy and becomes
NULL. -/
def jsOrNullInt (x : Option Int) : Option Int :=
  match x with
  | some n => if n = 0 then none else some n
  | none => none

/-- The `values` array `logApiCall` binds into its INSERT statement,
as the stored row. -/
def DatabaseManager.mkRow (data : ApiCallLogEntry) : ApiLogRow :=
  { test_name := jsOrNullStr data.testName
  , endpoint := data.endpoint
  , method := data.method
  , request_headers := serializePayload data.requestHeaders
  , request_body := serializePayload data.requestBody
  , response_status := jsOrNullInt data.responseStatus
  , response_headers := serializePayload data.responseHeaders
  , response_body := serializePayload data.responseBody
  , execution_time_ms := jsOrNullInt data.executionTimeMs }

/-- Errors the body of `logApiCall`'s try-block can throw. -/
inductive DbError where
  | insertFailed : DbError
deriving DecidableEq

/-- The try-block of `logApiCall`: serialize the payloads (that step has
its own internal fallback and cannot throw) and run the INSERT, whose
outcome is the `insertOk` oracle. -/
def DatabaseManager.logApiCallAttempt (insertOk : Bool)
    (data : ApiCallLogEntry) : Except DbError ApiLogRow :=
  if insertOk then Except.ok (DatabaseManager.mkRow data)
  else Except.error DbError.insertFailed

/-- `DatabaseManager.logApiCall(data)`. Returns the post-state, the row
inserted (if any), and the error propagated to the caller — the source
swallows every failure, so a faithful model must map the thrown branch
to `none` in the last component. -/
def DatabaseManager.logApiCall (env : Env) (insertOk : Bool) (s : DBState)
    (data : ApiCallLogEntry) : DBState × Option ApiLogRow × Option DbError :=
  let r := DatabaseManager.isReady env s
  if !r.fst then (r.snd, none, none)
  else
    match DatabaseManager.logApiCallAttempt insertOk data with
    | Except.ok row => (r.snd, some row, none)
    | Except.error _ => (r.snd, none, none)

/-! ## TestContainerManager (container lifecycle manager) -/

/-- Outcome of one external command (a `docker` CLI invocation or a
testcontainers start): success carrying its result, or a thrown error. -/
inductive ExecResult (α : Type) where
  | ok : α → ExecResult α
  | fail : ExecResult α
deriving DecidableEq

/-- The coordinates testcontainers assigns to a freshly created
container. Database name, user and password are taken from the resolved
config, so only the runtime-assigned fields are external. -/
structure NewContainerInfo where
  id : String
  host : String
  hostPort : Nat
deriving DecidableEq

/-- One run's worth of docker-side behaviour, as oracles:
`labeledPs` is the stdout of `docker ps --filter "label=playwright-test=true"`,
`ancestorPs` that of `docker ps --filter "ancestor=postgres:16-alpine"`,
`updateLabelOk` the outcome of the best-effort `docker update --label`,
`inspect` maps a container id to the stdout of
`docker inspect <id> --format .State.Running`,
`rmOk` the outcome of the cleanup `docker rm -f`, and
`createResult` the outcome of `new PostgreSqlContainer(...).start()`. -/
structure DockerWorld where
  labeledPs : ExecResult String
  ancestorPs : ExecResult String
  updateLabelOk : Bool
  inspect : String → ExecResult String
  rmOk : Bool
  createResult : ExecResult NewContainerInfo

/-- First match of the regex `0\.0\.0\.0:(\d+)->5432` starting exactly at
`cs`: a maximal digit run followed by the literal `->5432` (regex
backtracking cannot shorten the greedy `\d+`, since the character given
back would be a digit and could not match `-`). -/
def portMatchHere (cs : List Char) : Option Nat :=
  if listStartsWith cs "0.0.0.0:".data then
    let rest := cs.drop 8
    let ds := rest.takeWhile Char.isDigit
    if ds ≠ [] && listStartsWith (rest.drop ds.length) "->5432".data then
      some (digitsToNat ds)
    else none
  else none

/-- Leftmost match of `0\.0\.0\.0:(\d+)->5432` in a character list. -/
def findPortMapping : List Char → Option Nat
  | [] => none
  | c :: rest =>
    match portMatchHere (c :: rest) with
    | some p => some p
    | none => findPortMapping rest

/-- The container-id/port extraction of `findExistingContainer` on a
non-empty trimmed `docker ps` stdout: take the first line, split on a
comma into id and ports field (a line with no comma leaves the ports
field `undefined` and the subsequent `.match` call throws, which the
enclosing catch turns into "not found", modelled as `none`); match the
port regex; a missing or `0` port (`if (port)` is a falsy check) is
"not found". -/
def parsePsFirst (stdout : String) : Option (String × Nat) :=
  let line0 := (splitChar '\n' (jsTrim stdout).data).headD []
  match splitChar ',' line0 with
  | cid :: ports :: _ =>
    match findPortMapping ports with
    | some port => if port ≠ 0 then some (String.mk cid, port) else none
    | none => none
  | _ => none

/-- The record `findExistingContainer` resolves with. -/
structure FindRes where
  found : Bool
  containerId : Option String
  port : Option Nat
deriving DecidableEq

/-- `TestContainerManager.findExistingContainer()`: labeled `docker ps`
first, falling back to the legacy image filter; the best-effort label
attachment on a legacy hit has its own try/catch and no bearing on the
returned value; any thrown error is caught and reported as
"no existing container". -/
def TestContainerManager.findExistingContainer (w : DockerWorld) : FindRes :=
  match w.labeledPs with
  | ExecResult.fail => ⟨false, none, none⟩
  | ExecResult.ok out1 =>
    let second : ExecResult String :=
      if jsTrim out1 = "" then w.ancestorPs else ExecResult.ok out1
    match second with
    | ExecResult.fail => ⟨false, none, none⟩
    | ExecResult.ok stdout =>
      if jsTrim stdout = "" then ⟨false, none, none⟩
      else
        match parsePsFirst stdout with
        | some (cid, port) => ⟨true, some cid, some port⟩
        | none => ⟨false, none, none⟩

/-- `TestContainerManager.getExistingContainerConfig(containerId, port)`:
verify the container is running via `docker inspect`; on success publish
localhost, the discovered port and the configured credentials into the
environment and mark `DB_INITIALIZED`; on a failed command or a
non-running state, rethrow (second component `true`) leaving the
environment untouched. -/
def TestContainerManager.getExistingContainerConfig (w : DockerWorld)
    (env : Env) (containerId : String) (port : Nat) : Env × Bool :=
  match w.inspect containerId with
  | ExecResult.fail => (env, true)
  | ExecResult.ok out =>
    if jsTrim out = "true" then
      let config := loadConfig env
      ({ env with
          DB_HOST := some "localhost"
        , DB_PORT := some (toString port)
        , DB_NAME := some config.database
        , DB_USER := some config.user
        , DB_PASSWORD := some config.password
        , DB_INITIALIZED := some "true" }, false)
    else (env, true)

/-- The reuse attempt inside `start()` (lines up to the `return null`):
`some env'` when an existing container was found, verified and its
coordinates published; `none` when `start` falls through to creation
(the `docker rm -f` cleanup on a failed verification is itself wrapped
in a try/catch and has no modelled effect). -/
def TestContainerManager.startReuse (w : DockerWorld) (env : Env) :
    Option Env :=
  match TestContainerManager.findExistingContainer w with
  | ⟨true, some cid, some port⟩ =>
    if port ≠ 0 then
      match TestContainerManager.getExistingContainerConfig w env cid port with
      | (env', false) => some env'
      | (_, true) => none
    else none
  | _ => none

/-- The started-container handle this process instance tracks
(`this.container`). -/
structure CreatedContainer where
  id : String
  host : String
  hostPort : Nat
  database : String
  user : String
  password : String
deriving DecidableEq

/-- The mutable field of the `TestContainerManager` singleton. -/
structure ContainerState where
  container : Option CreatedContainer
deriving DecidableEq

/-- Errors `TestContainerManager.start` can propagate. -/
inductive StartErr where
  | creationFailed : StartErr
deriving DecidableEq

/-- The handle built from a successful container creation: runtime
coordinates from testcontainers, database/user/password from the
resolved config it was started with. -/
def TestContainerManager.mkCreated (env : Env) (nc : NewContainerInfo) :
    CreatedContainer :=
  let config := loadConfig env
  { id := nc.id, host := nc.host, hostPort := nc.hostPort
  , database := config.database, user := config.user
  , password := config.password }

/-- `TestContainerManager.start()`: reuse an existing container when the
discovery/verification pipeline succeeds (returning `null`, the stored
handle untouched); otherwise create a new container, publish its
coordinates into the environment, store the handle and return it;
creation failure propagates. -/
def TestContainerManager.start (w : DockerWorld) (env : Env)
    (cs : ContainerState) :
    ContainerState × Env × Except StartErr (Option CreatedContainer) :=
  match TestContainerManager.startReuse w env with
  | some env' => (cs, env', Except.ok none)
  | none =>
    match w.createResult with
    | ExecResult.fail => (cs, env, Except.error StartErr.creationFailed)
    | ExecResult.ok nc =>
      let c := TestContainerManager.mkCreated env nc
      let env' : Env :=
        { env with
            DB_HOST := some c.host
          , DB_PORT := some (toString c.hostPort)
          , DB_NAME := some c.database
          , DB_USER := some c.user
          , DB_PASSWORD := some c.password
          , DB_INITIALIZED := some "true" }
      (⟨some c⟩, env', Except.ok (some c))

/-- `TestContainerManager.stop()`: a no-op when the keep-alive flag is
set; otherwise stops and clears the tracked container if there is one.
The second component is the container that was stopped, `none` when no
stop was issued. -/
def TestContainerManager.stop (env : Env) (cs : ContainerState) :
    ContainerState × Option CreatedContainer :=
  if env.KEEP_CONTAINER_RUNNING = some "true" then (cs, none)
  else
    match cs.container with
    | some c => (⟨none⟩, some c)
    | none => (cs, none)

/-! ## ApiClientBase (logging-enabled request client) -/

/-- The per-client configuration captured in the constructor:
`this.logApiCalls = process.env.LOG_API_CALLS === 'true'`. -/
structure ClientCtx where
  logApiCalls : Bool
deriving DecidableEq

/-- A Playwright `APIResponse` as the logging path observes it:
status, headers (a plain string map, always serializable), and the two
body readers — `bodyJson` is `none` when `response.json()` throws,
`bodyText` is `none` when `response.text()` throws. -/
structure ApiResponse where
  status : Int
  headers : Json
  bodyJson : Option Json
  bodyText : Option String

/-- Outcome of one `this.request.fetch(...)` invocation: a resolved
response, or a rejection with the thrown `Error`'s message. -/
inductive FetchOutcome where
  | success : ApiResponse → FetchOutcome
  | failure : String → FetchOutcome

/-- The `ApiCallOptions` record of `api-client.base.ts`. -/
structure ApiCallOptions where
  headers : Option (List (String × String)) := none
  data : Option JsVal := none
  params : Option (List (String × String)) := none
  testName : Option String := none

/-- A header record as a JSON payload for logging. -/
def headersToJsVal (h : Option (List (String × String))) : Option JsVal :=
  h.map (fun l => JsVal.val (Json.obj (l.map (fun p => (p.fst, Json.str p.snd)))))

/-- `maxRetries` of `makeRequest`. -/
def maxRetries : Nat := 2

/-- The one retried failure signature:
`error.message.includes('context or browser has been closed')`. -/
def hasClosedSig (msg : String) : Bool :=
  jsIncludes msg "context or browser has been closed"

/-- Percent-encoding of one character as `URLSearchParams` serializes it:
unreserved characters pass through, space becomes `+`, everything else
`%XX` (uppercase hex of each UTF-8 byte). -/
def urlEncodeChar (c : Char) : String :=
  if c.isAlphanum || c = '-' || c = '.' || c = '_' || c = '*' then
    String.mk [c]
  else if c = ' ' then "+"
  else
    String.join ((String.toUTF8 (String.mk [c])).toList.map
      (fun b => String.mk ['%', Nat.digitChar (b.toNat / 16 % 16) |>.toUpper,
                           Nat.digitChar (b.toNat % 16) |>.toUpper]))

/-- `new URLSearchParams(params).toString()`. -/
def renderSearchParams (ps : List (String × String)) : String :=
  String.intercalate "&" (ps.map (fun p =>
    String.join (p.fst.data.map urlEncodeChar) ++ "=" ++
    String.join (p.snd.data.map urlEncodeChar)))

/-- The request URL `makeRequest` issues: `baseURL + endpoint`, with
`'?' + URLSearchParams(params)` appended whenever a `params` object was
provided (an empty object is truthy in JS, so it still appends `?`). -/
def requestUrl (baseURL endpoint : String) (options : ApiCallOptions) :
    String :=
  match options.params with
  | some ps => baseURL ++ endpoint ++ "?" ++ renderSearchParams ps
  | none => baseURL ++ endpoint

/-- `ApiClientBase.logToDatabase(method, endpoint, options, response,
executionTime)`: read the response body as JSON, falling back to text,
falling back to a placeholder; capture headers and status (absent when
`response` is null); hand everything to `DatabaseManager.logApiCall`.
Its own try/catch can never fire, because `logApiCall` never throws. -/
def ApiClientBase.logToDatabase (env : Env) (insertOk : Bool) (s : DBState)
    (method endpoint : String) (options : ApiCallOptions)
    (response : Option ApiResponse) (executionTime : Int) :
    DBState × Option ApiLogRow :=
  let responseBody : Option JsVal :=
    match response with
    | none => none
    | some r =>
      match r.bodyJson with
      | some j => some (JsVal.val j)
      | none =>
        match r.bodyText with
        | some t => some (JsVal.val (Json.str t))
        | none => some (JsVal.val (Json.str "Unable to parse response"))
  let out := DatabaseManager.logApiCall env insertOk s
    { testName := options.testName
    , endpoint := endpoint
    , method := method
    , requestHeaders := headersToJsVal options.headers
    , requestBody := options.data
    , responseStatus := response.map ApiResponse.status
    , responseHeaders := response.map (fun r => JsVal.val r.headers)
    , responseBody := responseBody
    , executionTimeMs := some executionTime }
  (out.fst, out.snd.fst)

/-- Everything one `makeRequest` call produces: the value returned or
error thrown to the caller, the URL it targeted, the sleeps it
performed (one entry per retry, in ms), the database state it left
behind and the log rows it inserted. -/
structure ReqOutcome where
  result : Except String ApiResponse
  url : String
  delaysMs : List Nat
  dbState : DBState
  logRows : List ApiLogRow

/-- `ApiClientBase.makeRequest(method, endpoint, options, retryCount)`.
Oracles: `attempts k` is the outcome of the fetch issued at
`retryCount = k`, `execTimes k` the wall-clock elapsed for that attempt,
`insertOk` the database INSERT outcome. On success: log (when enabled
and ready — `isReady()`'s pool-recreation side effect included) and
return the raw response. On a rejected fetch: retry after a 1000 ms
sleep when the message carries the closed-context signature and
`retryCount < maxRetries`; otherwise log the failed attempt (response
fields absent) and rethrow. -/
def ApiClientBase.makeRequest (ctx : ClientCtx) (env : Env)
    (insertOk : Bool) (attempts : Nat → FetchOutcome)
    (execTimes : Nat → Int) (baseURL method endpoint : String)
    (options : ApiCallOptions) (s : DBState) (retryCount : Nat) :
    ReqOutcome :=
  let url := requestUrl baseURL endpoint options
  match attempts retryCount with
  | FetchOutcome.success r =>
    let ready :=
      if ctx.logApiCalls then DatabaseManager.isReady env s else (false, s)
    if ready.fst then
      let logged := ApiClientBase.logToDatabase env insertOk ready.snd
        method endpoint options (some r) (execTimes retryCount)
      ⟨Except.ok r, url, [], logged.fst, logged.snd.toList⟩
    else ⟨Except.ok r, url, [], ready.snd, []⟩
  | FetchOutcome.failure msg =>
    if h : hasClosedSig msg = true ∧ retryCount < maxRetries then
      let t := ApiClientBase.makeRequest ctx env insertOk attempts execTimes
        baseURL method endpoint options s (retryCount + 1)
      ⟨t.result, url, 1000 :: t.delaysMs, t.dbState, t.logRows⟩
    else
      let ready :=
        if ctx.logApiCalls then DatabaseManager.isReady env s else (false, s)
      if ready.fst then
        let logged := ApiClientBase.logToDatabase env insertOk ready.snd
          method endpoint options none (execTimes retryCount)
        ⟨Except.error msg, url, [], logged.fst, logged.snd.toList⟩
      else ⟨Except.error msg, url, [], ready.snd, []⟩
termination_by maxRetries + 1 - retryCount
decreasing_by
  have hk := h.right
  simp only [maxRetries] at hk ⊢
  omega

/-- `ApiClientBase.get(endpoint, options)`: a `makeRequest` with method
GET and `retryCount` at its default `0`. -/
def ApiClientBase.get (ctx : ClientCtx) (env : Env) (insertOk : Bool)
    (attempts : Nat → FetchOutcome) (execTimes : Nat → Int)
    (baseURL endpoint : String) (options : ApiCallOptions) (s : DBState) :
    ReqOutcome :=
  ApiClientBase.makeRequest ctx env insertOk attempts execTimes baseURL
    "GET" endpoint options s 0

/-! ## UserClient.getUsers -/

/-- The options record of `UserClient.getUsers`. -/
structure GetUsersOptions where
  limit : Option Int := none
  skip : Option Int := none
  testName : Option String := none
deriving DecidableEq

/-- The `params` object `getUsers` builds: `limit` then `skip`, each
included only when truthy (`if (options.limit)` — so `0` and absence
are both dropped). -/
def UserClient.getUsersParams (o : GetUsersOptions) : List (String × String) :=
  (match o.limit with
   | some l => if l ≠ 0 then [("limit", toString l)] else []
   | none => []) ++
  (match o.skip with
   | some k => if k ≠ 0 then [("skip", toString k)] else []
   | none => [])

/-- The `ApiCallOptions` record `getUsers` passes to `this.get('/users',
...)`: always a `params` object (possibly empty), plus the test name. -/
def UserClient.getUsersCall (o : GetUsersOptions) : ApiCallOptions :=
  { headers := none
  , data := none
  , params := some (UserClient.getUsersParams o)
  , testName := o.testName }

/-- `UserClient.getUsers(options)` end to end. -/
def UserClient.getUsers (ctx : ClientCtx) (env : Env) (insertOk : Bool)
    (attempts : Nat → FetchOutcome) (execTimes : Nat → Int)
    (baseURL : String) (o : GetUsersOptions) (s : DBState) : ReqOutcome :=
  ApiClientBase.get ctx env insertOk attempts execTimes baseURL "/users"
    (UserClient.getUsersCall o) s

/-! ## Concrete inputs used by witnesses and counterexamples -/

/-- A state whose pool is live and initialized. -/
def readyState : DBState := ⟨some ⟨loadConfig Env.empty⟩, true⟩

/-- A log entry whose response status and execution time are both `0`. -/
def entryZero : ApiCallLogEntry :=
  { testName := some "t", endpoint := "/users", method := "GET"
  , requestHeaders := none, requestBody := none
  , responseStatus := some 0, responseHeaders := none
  , responseBody := none, executionTimeMs := some 0 }

/-- A log entry with serializable payloads and non-falsy scalars. -/
def entryPlain : ApiCallLogEntry :=
  { testName := some "t", endpoint := "/users", method := "GET"
  , requestHeaders := some (JsVal.val (Json.obj [("a", Json.str "b")]))
  , requestBody := some (JsVal.val (Json.num 7))
  , responseStatus := some 200
  , responseHeaders := some (JsVal.val (Json.obj []))
  , responseBody := some (JsVal.val (Json.arr [Json.num 1]))
  , executionTimeMs := some 12 }

/-- A log entry whose header and body objects hold circular references. -/
def entryCircular : ApiCallLogEntry :=
  { testName := none, endpoint := "/x", method := "POST"
  , requestHeaders := some JsVal.circular
  , requestBody := some JsVal.circular
  , responseStatus := none, responseHeaders := none
  , responseBody := none, executionTimeMs := none }

/-- A docker world holding one labeled running postgres container mapped
to host port 5433, where creating a new container would fail. -/
def worldLabeled : DockerWorld :=
  { labeledPs := ExecResult.ok "abc123def456,0.0.0.0:5433->5432/tcp\n"
  , ancestorPs := ExecResult.fail
  , updateLabelOk := true
  , inspect := fun _ => ExecResult.ok "true\n"
  , rmOk := true
  , createResult := ExecResult.fail }

/-- The coordinates of a freshly created container. -/
def ncFresh : NewContainerInfo := ⟨"facefeed0123", "localhost", 49200⟩

/-- A docker world where every discovery step fails and creation
succeeds. -/
def worldEmptyDocker : DockerWorld :=
  { labeledPs := ExecResult.fail
  , ancestorPs := ExecResult.fail
  , updateLabelOk := false
  , inspect := fun _ => ExecResult.fail
  , rmOk := false
  , createResult := ExecResult.ok ncFresh }

/-- A message carrying the retried failure signature. -/
def closedMsg : String :=
  "apiRequestContext.fetch: Target page, context or browser has been closed"

/-- A plain successful response. -/
def respOk : ApiResponse :=
  { status := 200, headers := Json.obj [], bodyJson := some (Json.obj [])
  , bodyText := none }

/-- A fetch oracle that fails once with the retried signature, then
succeeds. -/
def attemptsRetryOnce : Nat → FetchOutcome :=
  fun k => if k = 0 then FetchOutcome.failure closedMsg
           else FetchOutcome.success respOk

/-- A container handle tracked by a manager instance. -/
def trackedContainer : CreatedContainer :=
  ⟨"deadbeef4567", "localhost", 49321, "api_test_db", "testuser", "testpass"⟩

/-! ## Step lemmas for makeRequest -/

/-- A resolved fetch ends the recursion: the raw response is returned and
no retry delay is taken, whatever the logging branch does. -/
theorem makeRequest_success (ctx : ClientCtx) (env : Env) (insertOk : Bool)
    (attempts : Nat → FetchOutcome) (execTimes : Nat → Int)
    (baseURL method endpoint : String) (options : ApiCallOptions)
    (s : DBState) (k : Nat) (r : ApiResponse)
    (hA : attempts k = FetchOutcome.success r) :
    (ApiClientBase.makeRequest ctx env insertOk attempts execTimes baseURL
      method endpoint options s k).result = Except.ok r ∧
    (ApiClientBase.makeRequest ctx env insertOk attempts execTimes baseURL
      method endpoint options s k).delaysMs = [] := by
  rw [ApiClientBase.makeRequest.eq_def, hA]
  dsimp only []
  constructor <;> (split_ifs <;> rfl)

/-- A rejected fetch carrying the closed-context signature below the
retry budget recurses after one 1000 ms sleep. -/
theorem makeRequest_retry (ctx : ClientCtx) (env : Env) (insertOk : Bool)
    (attempts : Nat → FetchOutcome) (execTimes : Nat → Int)
    (baseURL method endpoint : String) (options : ApiCallOptions)
    (s : DBState) (k : Nat) (m : String)
    (hA : attempts k = FetchOutcome.failure m)
    (hs : hasClosedSig m = true) (hk : k < maxRetries) :
    (ApiClientBase.makeRequest ctx env insertOk attempts execTimes baseURL
      method endpoint options s k).result =
      (ApiClientBase.makeRequest ctx env insertOk attempts execTimes baseURL
        method endpoint options s (k + 1)).result ∧
    (ApiClientBase.makeRequest ctx env insertOk attempts execTimes baseURL
      method endpoint options s k).delaysMs =
      1000 :: (ApiClientBase.makeRequest ctx env insertOk attempts execTimes
        baseURL method endpoint options s (k + 1)).delaysMs := by
  rw [ApiClientBase.makeRequest.eq_def, hA]
  dsimp only []
  rw [dif_pos ⟨hs, hk⟩]
  exact ⟨rfl, rfl⟩

/-- A rejected fetch that is not retried (wrong signature, or the budget
is exhausted) propagates the error with no further delay. -/
theorem makeRequest_stop (ctx : ClientCtx) (env : Env) (insertOk : Bool)
    (attempts : Nat → FetchOutcome) (execTimes : Nat → Int)
    (baseURL method endpoint : String) (options : ApiCallOptions)
    (s : DBState) (k : Nat) (m : String)
    (hA : attempts k = FetchOutcome.failure m)
    (hstop : ¬(hasClosedSig m = true ∧ k < maxRetries)) :
    (ApiClientBase.makeRequest ctx env insertOk attempts execTimes baseURL
      method endpoint options s k).result = Except.error m ∧
    (ApiClientBase.makeRequest ctx env insertOk attempts execTimes baseURL
      method endpoint options s k).delaysMs = [] := by
  rw [ApiClientBase.makeRequest.eq_def, hA]
  dsimp only []
  rw [dif_neg hstop]
  constructor <;> (split_ifs <;> rfl)

/-- The targeted URL is determined by base URL, endpoint and options
alone, in every branch. -/
theorem makeRequest_url (ctx : ClientCtx) (env : Env) (insertOk : Bool)
    (attempts : Nat → FetchOutcome) (execTimes : Nat → Int)
    (baseURL method endpoint : String) (options : ApiCallOptions)
    (s : DBState) (k : Nat) :
    (ApiClientBase.makeRequest ctx env insertOk attempts execTimes baseURL
      method endpoint options s k).url = requestUrl baseURL endpoint options := by
  rw [ApiClientBase.makeRequest.eq_def]
  dsimp only []
  split
  · split_ifs <;> rfl
  · split
    · rfl
    · split_ifs <;> rfl

/-! ## Claim C1 -/

/-- Claim C1, counterexample: the claim asserts `isReady()` returns false
before any call to `initialize()` for all environment states, including
when `DB_INITIALIZED` is `'true'`. On the fresh singleton state, with
`DB_INITIALIZED = 'true'` and no `initialize()` ever called, `isReady()`
recreates the pool as a side effect and returns true. -/
theorem claim_C1_cex :
    ( DatabaseManager.isReady { DB_INITIALIZED := some "true" }
      DBState.initial).fst = true := by
  rfl

/-- Claim C1, amended: in every environment state where `DB_INITIALIZED`
is not `'true'`, `isReady()` returns false before any call to
`initialize()`, returns true after a successful `initialize()`, and
returns false again after `close()`; when `DB_INITIALIZED` is `'true'`,
`isReady()` instead silently re-creates the pool and reports true even
without a successful `initialize()`. -/
theorem claim_C1 (env : Env) (connOk schemaOk : Bool) (s1 : DBState)
    (henv : env.DB_INITIALIZED ≠ some "true")
    (hinit : DatabaseManager.initialize env connOk schemaOk DBState.initial
      = (s1, none)) :
    ( DatabaseManager.isReady env DBState.initial).fst = false ∧
    ( DatabaseManager.isReady env s1).fst = true ∧
    ( DatabaseManager.isReady env (DatabaseManager.close s1)).fst = false := by
  have hs1 : s1 = ⟨some ⟨loadConfig env⟩, true⟩ := by
    rcases connOk with _ | _ <;> rcases schemaOk with _ | _ <;>
      simp [ DatabaseManager.initialize, DBState.initial] at hinit
    exact hinit.symm
  subst hs1
  refine ⟨?_, ?_, ?_⟩
  · simp [ DatabaseManager.isReady, DatabaseManager.reinitializePool,
      DBState.initial, henv]
  · simp [ DatabaseManager.isReady]
  · simp [ DatabaseManager.isReady, DatabaseManager.close,
      DatabaseManager.reinitializePool, henv]

/-- Witness for C1: the amended property at the empty environment with
both initialization oracles succeeding. -/
theorem claim_C1_witness :
    ( DatabaseManager.isReady Env.empty DBState.initial).fst = false ∧
    ( DatabaseManager.isReady Env.empty
      ( DatabaseManager.initialize Env.empty true true DBState.initial).fst).fst
      = true ∧
    ( DatabaseManager.isReady Env.empty (DatabaseManager.close
      ( DatabaseManager.initialize Env.empty true true DBState.initial).fst)).fst
      = false :=
  claim_C1 Env.empty true true
    ( DatabaseManager.initialize Env.empty true true DBState.initial).fst
    (by decide) rfl

/-! ## Claim C2 -/

/-- Claim C2, counterexample: the claim asserts a failing `initialize()`
leaves the manager uninitialized, with `isReady()` false and a
subsequent `initialize()` re-running the full initialization. When the
connectivity probe succeeds but schema/table creation fails, the error
does propagate, but the manager is already marked initialized:
`isReady()` reports true, and a subsequent `initialize()` with an
unreachable database (`connOk = false`) returns without error and
without touching the state — a pure no-op rather than a re-run. -/
theorem claim_C2_cex :
    ( DatabaseManager.initialize Env.empty true false DBState.initial).snd
      = some InitError.schemaFailed ∧
    ( DatabaseManager.isReady Env.empty
      ( DatabaseManager.initialize Env.empty true false DBState.initial).fst).fst
      = true ∧
    DatabaseManager.initialize Env.empty false false
      ( DatabaseManager.initialize Env.empty true false DBState.initial).fst
      = (( DatabaseManager.initialize Env.empty true false DBState.initial).fst,
         none) := by
  exact ⟨rfl, rfl, rfl⟩

/-- Claim C2, amended: a failure of the connectivity check propagates and
leaves the manager uninitialized — `isReady()` stays false (whenever
`DB_INITIALIZED` is not `'true'`) and a subsequent `initialize()`
re-runs the full initialization. A failure of schema/table creation also
propagates, but leaves the manager marked initialized: `isReady()`
returns true and a subsequent `initialize()` no-ops regardless of its
own oracles. -/
theorem claim_C2 (env : Env) (schemaOk connOk2 schemaOk2 : Bool)
    (henv : env.DB_INITIALIZED ≠ some "true") :
    ( DatabaseManager.initialize env false schemaOk DBState.initial).snd
      = some InitError.connectionFailed ∧
    ( DatabaseManager.initialize env false schemaOk DBState.initial).fst.isInitialized
      = false ∧
    ( DatabaseManager.isReady env
      ( DatabaseManager.initialize env false schemaOk DBState.initial).fst).fst
      = false ∧
    ( DatabaseManager.initialize env true true
      ( DatabaseManager.initialize env false schemaOk DBState.initial).fst).snd
      = none ∧
    ( DatabaseManager.initialize env true true
      ( DatabaseManager.initialize env false schemaOk DBState.initial).fst).fst.isInitialized
      = true ∧
    ( DatabaseManager.initialize env true false DBState.initial).snd
      = some InitError.schemaFailed ∧
    ( DatabaseManager.initialize env true false DBState.initial).fst.isInitialized
      = true ∧
    ( DatabaseManager.isReady env
      ( DatabaseManager.initialize env true false DBState.initial).fst).fst
      = true ∧
    DatabaseManager.initialize env connOk2 schemaOk2
      ( DatabaseManager.initialize env true false DBState.initial).fst
      = (( DatabaseManager.initialize env true false DBState.initial).fst, none) := by
  refine ⟨rfl, rfl, ?_, rfl, rfl, rfl, rfl, ?_, ?_⟩
  · simp [ DatabaseManager.initialize, DatabaseManager.isReady,
      DatabaseManager.reinitializePool, DBState.initial, henv]
  · simp [ DatabaseManager.initialize, DatabaseManager.isReady,
      DBState.initial]
  · simp [ DatabaseManager.initialize, DBState.initial]

/-- Witness for C2: the amended property at the empty environment. -/
theorem claim_C2_witness :
    ( DatabaseManager.initialize Env.empty false true DBState.initial).snd
      = some InitError.connectionFailed ∧
    ( DatabaseManager.initialize Env.empty false true DBState.initial).fst.isInitialized
      = false ∧
    ( DatabaseManager.isReady Env.empty
      ( DatabaseManager.initialize Env.empty false true DBState.initial).fst).fst
      = false ∧
    ( DatabaseManager.initialize Env.empty true true
      ( DatabaseManager.initialize Env.empty false true DBState.initial).fst).snd
      = none ∧
    ( DatabaseManager.initialize Env.empty true true
      ( DatabaseManager.initialize Env.empty false true DBState.initial).fst).fst.isInitialized
      = true ∧
    ( DatabaseManager.initialize Env.empty true false DBState.initial).snd
      = some InitError.schemaFailed ∧
    ( DatabaseManager.initialize Env.empty true false DBState.initial).fst.isInitialized
      = true ∧
    ( DatabaseManager.isReady Env.empty
      ( DatabaseManager.initialize Env.empty true false DBState.initial).fst).fst
      = true ∧
    DatabaseManager.initialize Env.empty false true
      ( DatabaseManager.initialize Env.empty true false DBState.initial).fst
      = (( DatabaseManager.initialize Env.empty true false DBState.initial).fst,
         none) :=
  claim_C2 Env.empty true false true (by decide)

/-- `x || null` preserves a string that is present and non-empty, and
preserves absence. -/
theorem jsOrNullStr_of_ne (x : Option String) (h : x ≠ some "") :
    jsOrNullStr x = x := by
  rcases x with _ | s
  · rfl
  · have hn : ¬ s = "" := fun he => h (by rw [he])
    simp [jsOrNullStr, hn]

/-- `x || null` preserves a number that is present and non-zero, and
preserves absence. -/
theorem jsOrNullInt_of_ne (x : Option Int) (h : x ≠ some 0) :
    jsOrNullInt x = x := by
  rcases x with _ | n
  · rfl
  · have hn : ¬ n = 0 := fun he => h (by rw [he])
    simp [jsOrNullInt, hn]

/-- Serializing a payload that has a JSON denotation (or is absent)
stores exactly that JSON value. -/
theorem serializePayload_map (j : Option Json) :
    serializePayload (j.map JsVal.val) = j := by
  rcases j with _ | j <;> rfl

/-! ## Claim C3 -/

/-- Claim C3, counterexample: the claim asserts the insert/read-back
round trip preserves `responseStatus` and `executionTimeMs` even when
they are `0`. Inserting an entry with `responseStatus = 0` and
`executionTimeMs = 0` through `logApiCall` stores NULL in both columns
(`data.responseStatus || null` and `data.executionTimeMs || null` treat
`0` as falsy), so the row read back is not identical to the entry. -/
theorem claim_C3_cex :
    (( DatabaseManager.logApiCall Env.empty true readyState
      entryZero).snd.fst).map ApiLogRow.response_status = some none ∧
    (( DatabaseManager.logApiCall Env.empty true readyState
      entryZero).snd.fst).map ApiLogRow.execution_time_ms = some none ∧
    entryZero.responseStatus = some 0 ∧
    entryZero.executionTimeMs = some 0 := by
  exact ⟨rfl, rfl, rfl, rfl⟩

/-- Claim C3, amended: for every `ApiCallLogEntry` whose `testName` is
not the empty string, whose header/body payloads are JSON-serializable
(or absent), and whose `responseStatus` and `executionTimeMs` are not
`0`, inserting it via `logApiCall` on a ready manager with a succeeding
INSERT stores a row whose `testName`, `endpoint`, `method`,
`responseStatus` and `executionTimeMs` equal the entry's and whose
header/body columns hold JSON values equivalent to the entry's payloads;
a `responseStatus` or `executionTimeMs` of `0` (or an empty-string
`testName`) is instead stored as NULL by the falsy-coalescing insert. -/
theorem claim_C3 (env : Env) (s : DBState) (data : ApiCallLogEntry)
    (jh jb rh rb : Option Json)
    (hready : ( DatabaseManager.isReady env s).fst = true)
    (ht : data.testName ≠ some "")
    (hst : data.responseStatus ≠ some 0)
    (het : data.executionTimeMs ≠ some 0)
    (h1 : data.requestHeaders = jh.map JsVal.val)
    (h2 : data.requestBody = jb.map JsVal.val)
    (h3 : data.responseHeaders = rh.map JsVal.val)
    (h4 : data.responseBody = rb.map JsVal.val) :
    ( DatabaseManager.logApiCall env true s data).snd.fst = some
      { test_name := data.testName
      , endpoint := data.endpoint
      , method := data.method
      , request_headers := jh
      , request_body := jb
      , response_status := data.responseStatus
      , response_headers := rh
      , response_body := rb
      , execution_time_ms := data.executionTimeMs } := by
  have e1 : jsOrNullStr data.testName = data.testName := jsOrNullStr_of_ne _ ht
  have e2 : jsOrNullInt data.responseStatus = data.responseStatus :=
    jsOrNullInt_of_ne _ hst
  have e3 : jsOrNullInt data.executionTimeMs = data.executionTimeMs :=
    jsOrNullInt_of_ne _ het
  simp [ DatabaseManager.logApiCall, DatabaseManager.logApiCallAttempt,
    hready, DatabaseManager.mkRow, h1, h2, h3, h4, serializePayload_map,
    e1, e2, e3]

/-- Witness for C3: the round trip at a concrete entry with serializable
payloads, status 200 and a 12 ms execution time, on a ready manager. -/
theorem claim_C3_witness :
    ( DatabaseManager.logApiCall Env.empty true readyState entryPlain).snd.fst
      = some
      { test_name := some "t", endpoint := "/users", method := "GET"
      , request_headers := some (Json.obj [("a", Json.str "b")])
      , request_body := some (Json.num 7)
      , response_status := some 200
      , response_headers := some (Json.obj [])
      , response_body := some (Json.arr [Json.num 1])
      , execution_time_ms := some 12 } :=
  claim_C3 Env.empty readyState entryPlain
    (some (Json.obj [("a", Json.str "b")])) (some (Json.num 7))
    (some (Json.obj [])) (some (Json.arr [Json.num 1]))
    rfl (by decide) (by decide) (by decide) rfl rfl rfl rfl

/-! ## Claim C4 -/

/-- Claim C4, confirmed: for every environment, INSERT outcome, manager
state and entry — including entries whose header or body objects cannot
be serialized — `logApiCall` propagates no error to its caller, and when
the manager is not ready it inserts nothing. -/
theorem claim_C4 (env : Env) (insertOk : Bool) (s : DBState)
    (data : ApiCallLogEntry) :
    ( DatabaseManager.logApiCall env insertOk s data).snd.snd = none ∧
    (( DatabaseManager.isReady env s).fst = false →
      ( DatabaseManager.logApiCall env insertOk s data).snd.fst = none) := by
  constructor
  · simp only [ DatabaseManager.logApiCall, DatabaseManager.logApiCallAttempt]
    split_ifs <;> rfl
  · intro hr
    simp [ DatabaseManager.logApiCall, hr]

/-- Witness for C4: a not-ready manager and an entry whose header and
body objects are circular; nothing is thrown and nothing is inserted. -/
theorem claim_C4_witness :
    ( DatabaseManager.logApiCall Env.empty false DBState.initial
      entryCircular).snd.snd = none ∧
    ( DatabaseManager.logApiCall Env.empty false DBState.initial
      entryCircular).snd.fst = none :=
  ⟨(claim_C4 Env.empty false DBState.initial entryCircular).1,
   (claim_C4 Env.empty false DBState.initial entryCircular).2 rfl⟩

/-! ## Claim C5 -/

/-- Claim C5, confirmed: whenever the labeled `docker ps` returns a
non-empty listing whose first line parses to a container id and a
non-zero host port, and `docker inspect` on that id reports a running
state, `start()` returns null (the reuse signal), leaves the stored
handle untouched, and publishes host `localhost`, the discovered port
and `DB_INITIALIZED='true'` into the environment. -/
theorem claim_C5 (w : DockerWorld) (env : Env) (cs : ContainerState)
    (psOut insOut cid : String) (p : Nat)
    (h1 : w.labeledPs = ExecResult.ok psOut)
    (h2 : jsTrim psOut ≠ "")
    (h3 : parsePsFirst psOut = some (cid, p))
    (h4 : p ≠ 0)
    (h5 : w.inspect cid = ExecResult.ok insOut)
    (h6 : jsTrim insOut = "true") :
    (TestContainerManager.start w env cs).snd.snd = Except.ok none ∧
    (TestContainerManager.start w env cs).fst = cs ∧
    (TestContainerManager.start w env cs).snd.fst.DB_HOST = some "localhost" ∧
    (TestContainerManager.start w env cs).snd.fst.DB_PORT = some (toString p) ∧
    (TestContainerManager.start w env cs).snd.fst.DB_INITIALIZED
      = some "true" := by
  have hfind : TestContainerManager.findExistingContainer w
      = ⟨true, some cid, some p⟩ := by
    simp [TestContainerManager.findExistingContainer, h1, h2, h3]
  simp [TestContainerManager.start, TestContainerManager.startReuse, hfind,
    h4, TestContainerManager.getExistingContainerConfig, h5, h6]

/-- Witness for C5: the concrete docker world holding one labeled
running container on host port 5433. -/
theorem claim_C5_witness :
    (TestContainerManager.start worldLabeled Env.empty ⟨none⟩).snd.snd
      = Except.ok none ∧
    (TestContainerManager.start worldLabeled Env.empty ⟨none⟩).fst = ⟨none⟩ ∧
    (TestContainerManager.start worldLabeled Env.empty ⟨none⟩).snd.fst.DB_HOST
      = some "localhost" ∧
    (TestContainerManager.start worldLabeled Env.empty ⟨none⟩).snd.fst.DB_PORT
      = some (toString 5433) ∧
    (TestContainerManager.start worldLabeled Env.empty ⟨none⟩).snd.fst.DB_INITIALIZED
      = some "true" :=
  claim_C5 worldLabeled Env.empty ⟨none⟩
    "abc123def456,0.0.0.0:5433->5432/tcp\n" "true\n" "abc123def456" 5433
    rfl (by decide) rfl (by decide) rfl (by decide)

/-! ## Claim C7 -/

/-- Claim C7, confirmed: with the keep-alive flag set, `stop()` stops
nothing; with it unset, `stop()` stops exactly the tracked container and
clears the handle (and stops nothing when no handle is tracked). A
`start()` that signalled reuse (`null`) leaves the stored handle
unchanged, and a `start()` that created a container stores exactly that
container — so a reused container is never tracked and never stopped. -/
theorem claim_C7 (env : Env) (cs : ContainerState) (w : DockerWorld) :
    (env.KEEP_CONTAINER_RUNNING = some "true" →
      TestContainerManager.stop env cs = (cs, none)) ∧
    (env.KEEP_CONTAINER_RUNNING ≠ some "true" →
      (∀ c, cs.container = some c →
        TestContainerManager.stop env cs = (⟨none⟩, some c)) ∧
      (cs.container = none → TestContainerManager.stop env cs = (cs, none))) ∧
    ((TestContainerManager.start w env cs).snd.snd = Except.ok none →
      (TestContainerManager.start w env cs).fst = cs) ∧
    (∀ c, (TestContainerManager.start w env cs).snd.snd
        = Except.ok (some c) →
      (TestContainerManager.start w env cs).fst = ⟨some c⟩) := by
  refine ⟨?_, ?_, ?_, ?_⟩
  · intro hk
    simp [TestContainerManager.stop, hk]
  · intro hk
    constructor
    · intro c hc
      simp [TestContainerManager.stop, hk, hc]
    · intro hc
      simp [TestContainerManager.stop, hk, hc]
  · intro hok
    rcases hr : TestContainerManager.startReuse w env with _ | env'
    · rcases hc : w.createResult with _ | nc <;>
        simp [TestContainerManager.start, hr, hc] at hok ⊢
    · simp [TestContainerManager.start, hr]
  · intro c hok
    rcases hr : TestContainerManager.startReuse w env with _ | env'
    · rcases hc : w.createResult with _ | nc <;>
        simp [TestContainerManager.start, hr, hc] at hok ⊢
      rw [hok]
    · simp [TestContainerManager.start, hr] at hok

/-- Witness for C7: with the keep-alive flag set, a manager tracking a
container stops nothing. -/
theorem claim_C7_witness :
    TestContainerManager.stop { KEEP_CONTAINER_RUNNING := some "true" }
      ⟨some trackedContainer⟩ = (⟨some trackedContainer⟩, none) :=
  (claim_C7 { KEEP_CONTAINER_RUNNING := some "true" }
    ⟨some trackedContainer⟩ worldLabeled).1 rfl

/-! ## Claim C8 -/

/-- Claim C8, confirmed: a failed labeled-discovery command is swallowed
into "no existing container"; a failed running-state inspection of a
discovered container is likewise swallowed; whenever the reuse pipeline
produced nothing and container creation succeeds, `start()` falls
through to creating and returning a new container; and `start()`
propagates an error only when creation itself failed. -/
theorem claim_C8 (w : DockerWorld) (env : Env) (cs : ContainerState) :
    (w.labeledPs = ExecResult.fail →
      TestContainerManager.startReuse w env = none) ∧
    (∀ cid p, TestContainerManager.findExistingContainer w
        = ⟨true, some cid, some p⟩ →
      w.inspect cid = ExecResult.fail →
      TestContainerManager.startReuse w env = none) ∧
    (TestContainerManager.startReuse w env = none →
      ∀ nc, w.createResult = ExecResult.ok nc →
        (TestContainerManager.start w env cs).snd.snd
          = Except.ok (some (TestContainerManager.mkCreated env nc))) ∧
    (∀ e, (TestContainerManager.start w env cs).snd.snd = Except.error e →
      w.createResult = ExecResult.fail) := by
  refine ⟨?_, ?_, ?_, ?_⟩
  · intro hl
    simp [TestContainerManager.startReuse,
      TestContainerManager.findExistingContainer, hl]
  · intro cid p hfind hins
    simp [TestContainerManager.startReuse, hfind,
      TestContainerManager.getExistingContainerConfig, hins]
  · intro hre nc hc
    simp [TestContainerManager.start, hre, hc]
  · intro e he
    rcases hr : TestContainerManager.startReuse w env with _ | env'
    · rcases hc : w.createResult with nc | _
      · simp [TestContainerManager.start, hr, hc] at he
      · rfl
    · simp [TestContainerManager.start, hr] at he

/-- Witness for C8: a world where every discovery command fails and
creation succeeds — `start()` swallows the failures and returns the
freshly created container. -/
theorem claim_C8_witness :
    (TestContainerManager.start worldEmptyDocker Env.empty ⟨none⟩).snd.snd
      = Except.ok (some (TestContainerManager.mkCreated Env.empty ncFresh)) :=
  (claim_C8 worldEmptyDocker Env.empty ⟨none⟩).2.2.1 rfl ncFresh rfl

/-! ## Claim C6 -/

/-- Claim C6, confirmed: across every fetch oracle, logging
configuration and database state, `makeRequest` (entered at its default
`retryCount = 0`) retries exactly on the closed-context signature, one
1000 ms sleep per retry, at most 2 extra attempts: a first failure
without the signature propagates immediately with no delay; a success
ends the call; after one or two signature failures the next outcome is
decisive — a success is returned, a non-signature failure propagates,
and a third consecutive failure propagates even if it carries the
signature (budget exhausted). -/
theorem claim_C6 (ctx : ClientCtx) (env : Env) (insertOk : Bool)
    (attempts : Nat → FetchOutcome) (execTimes : Nat → Int)
    (baseURL method endpoint : String) (options : ApiCallOptions)
    (s : DBState) :
    (∀ m, attempts 0 = FetchOutcome.failure m → hasClosedSig m = false →
      (ApiClientBase.makeRequest ctx env insertOk attempts execTimes baseURL
        method endpoint options s 0).result = Except.error m ∧
      (ApiClientBase.makeRequest ctx env insertOk attempts execTimes baseURL
        method endpoint options s 0).delaysMs = []) ∧
    (∀ r, attempts 0 = FetchOutcome.success r →
      (ApiClientBase.makeRequest ctx env insertOk attempts execTimes baseURL
        method endpoint options s 0).result = Except.ok r ∧
      (ApiClientBase.makeRequest ctx env insertOk attempts execTimes baseURL
        method endpoint options s 0).delaysMs = []) ∧
    (∀ m r, attempts 0 = FetchOutcome.failure m → hasClosedSig m = true →
      attempts 1 = FetchOutcome.success r →
      (ApiClientBase.makeRequest ctx env insertOk attempts execTimes baseURL
        method endpoint options s 0).result = Except.ok r ∧
      (ApiClientBase.makeRequest ctx env insertOk attempts execTimes baseURL
        method endpoint options s 0).delaysMs = [1000]) ∧
    (∀ m m1, attempts 0 = FetchOutcome.failure m → hasClosedSig m = true →
      attempts 1 = FetchOutcome.failure m1 → hasClosedSig m1 = false →
      (ApiClientBase.makeRequest ctx env insertOk attempts execTimes baseURL
        method endpoint options s 0).result = Except.error m1 ∧
      (ApiClientBase.makeRequest ctx env insertOk attempts execTimes baseURL
        method endpoint options s 0).delaysMs = [1000]) ∧
    (∀ m m1 r, attempts 0 = FetchOutcome.failure m → hasClosedSig m = true →
      attempts 1 = FetchOutcome.failure m1 → hasClosedSig m1 = true →
      attempts 2 = FetchOutcome.success r →
      (ApiClientBase.makeRequest ctx env insertOk attempts execTimes baseURL
        method endpoint options s 0).result = Except.ok r ∧
      (ApiClientBase.makeRequest ctx env insertOk attempts execTimes baseURL
        method endpoint options s 0).delaysMs = [1000, 1000]) ∧
    (∀ m m1 m2, attempts 0 = FetchOutcome.failure m → hasClosedSig m = true →
      attempts 1 = FetchOutcome.failure m1 → hasClosedSig m1 = true →
      attempts 2 = FetchOutcome.failure m2 →
      (ApiClientBase.makeRequest ctx env insertOk attempts execTimes baseURL
        method endpoint options s 0).result = Except.error m2 ∧
      (ApiClientBase.makeRequest ctx env insertOk attempts execTimes baseURL
        method endpoint options s 0).delaysMs = [1000, 1000]) := by
  refine ⟨?_, ?_, ?_, ?_, ?_, ?_⟩
  · intro m h0 hs
    exact makeRequest_stop ctx env insertOk attempts execTimes baseURL method
      endpoint options s 0 m h0 (by simp [hs])
  · intro r h0
    exact makeRequest_success ctx env insertOk attempts execTimes baseURL
      method endpoint options s 0 r h0
  · intro m r h0 hs h1
    have t0 := makeRequest_retry ctx env insertOk attempts execTimes baseURL
      method endpoint options s 0 m h0 hs (by decide)
    have t1 := makeRequest_success ctx env insertOk attempts execTimes baseURL
      method endpoint options s 1 r h1
    refine ⟨t0.1.trans t1.1, ?_⟩
    rw [t0.2, t1.2]
  · intro m m1 h0 hs h1 hs1
    have t0 := makeRequest_retry ctx env insertOk attempts execTimes baseURL
      method endpoint options s 0 m h0 hs (by decide)
    have t1 := makeRequest_stop ctx env insertOk attempts execTimes baseURL
      method endpoint options s 1 m1 h1 (by simp [hs1])
    refine ⟨t0.1.trans t1.1, ?_⟩
    rw [t0.2, t1.2]
  · intro m m1 r h0 hs h1 hs1 h2
    have t0 := makeRequest_retry ctx env insertOk attempts execTimes baseURL
      method endpoint options s 0 m h0 hs (by decide)
    have t1 := makeRequest_retry ctx env insertOk attempts execTimes baseURL
      method endpoint options s 1 m1 h1 hs1 (by decide)
    have t2 := makeRequest_success ctx env insertOk attempts execTimes baseURL
      method endpoint options s 2 r h2
    refine ⟨(t0.1.trans t1.1).trans t2.1, ?_⟩
    rw [t0.2, t1.2, t2.2]
  · intro m m1 m2 h0 hs h1 hs1 h2
    have t0 := makeRequest_retry ctx env insertOk attempts execTimes baseURL
      method endpoint options s 0 m h0 hs (by decide)
    have t1 := makeRequest_retry ctx env insertOk attempts execTimes baseURL
      method endpoint options s 1 m1 h1 hs1 (by decide)
    have t2 := makeRequest_stop ctx env insertOk attempts execTimes baseURL
      method endpoint options s 2 m2 h2 (by simp [maxRetries])
    refine ⟨(t0.1.trans t1.1).trans t2.1, ?_⟩
    rw [t0.2, t1.2, t2.2]

/-- Witness for C6: a fetch oracle whose first attempt fails with the
closed-context signature and whose second succeeds — the response is
returned after exactly one 1000 ms retry delay. -/
theorem claim_C6_witness :
    (ApiClientBase.makeRequest ⟨true⟩ Env.empty true attemptsRetryOnce
      (fun _ => 5) "https://dummyjson.com" "GET" "/users" {}
      DBState.initial 0).result = Except.ok respOk ∧
    (ApiClientBase.makeRequest ⟨true⟩ Env.empty true attemptsRetryOnce
      (fun _ => 5) "https://dummyjson.com" "GET" "/users" {}
      DBState.initial 0).delaysMs = [1000] :=
  (claim_C6 ⟨true⟩ Env.empty true attemptsRetryOnce (fun _ => 5)
    "https://dummyjson.com" "GET" "/users" {} DBState.initial).2.2.1
    closedMsg respOk rfl (by decide) rfl

/-! ## Claim C9 -/

/-- Two `makeRequest` runs over the same fetch oracle, clock, URL parts
and options agree on the caller-visible result and retry delays whatever
their logging configuration, environment, INSERT outcome and database
state are (fuel-indexed induction over the bounded retry recursion). -/
theorem makeRequest_observables (attempts : Nat → FetchOutcome)
    (execTimes : Nat → Int) (baseURL method endpoint : String)
    (options : ApiCallOptions) :
    ∀ (n k : Nat), maxRetries + 1 - k ≤ n →
    ∀ (ctx1 ctx2 : ClientCtx) (env1 env2 : Env) (i1 i2 : Bool)
      (s1 s2 : DBState),
    (ApiClientBase.makeRequest ctx1 env1 i1 attempts execTimes baseURL
      method endpoint options s1 k).result
      = (ApiClientBase.makeRequest ctx2 env2 i2 attempts execTimes baseURL
        method endpoint options s2 k).result ∧
    (ApiClientBase.makeRequest ctx1 env1 i1 attempts execTimes baseURL
      method endpoint options s1 k).delaysMs
      = (ApiClientBase.makeRequest ctx2 env2 i2 attempts execTimes baseURL
        method endpoint options s2 k).delaysMs := by
  intro n
  have hm : maxRetries = 2 := rfl
  induction n with
  | zero =>
    intro k hk ctx1 ctx2 env1 env2 i1 i2 s1 s2
    have hk2 : ¬ k < maxRetries := by omega
    cases hA : attempts k with
    | success r =>
      have a1 := makeRequest_success ctx1 env1 i1 attempts execTimes baseURL
        method endpoint options s1 k r hA
      have a2 := makeRequest_success ctx2 env2 i2 attempts execTimes baseURL
        method endpoint options s2 k r hA
      exact ⟨a1.1.trans a2.1.symm, a1.2.trans a2.2.symm⟩
    | failure m =>
      have hstop : ¬(hasClosedSig m = true ∧ k < maxRetries) :=
        fun h => hk2 h.2
      have a1 := makeRequest_stop ctx1 env1 i1 attempts execTimes baseURL
        method endpoint options s1 k m hA hstop
      have a2 := makeRequest_stop ctx2 env2 i2 attempts execTimes baseURL
        method endpoint options s2 k m hA hstop
      exact ⟨a1.1.trans a2.1.symm, a1.2.trans a2.2.symm⟩
  | succ n ih =>
    intro k hk ctx1 ctx2 env1 env2 i1 i2 s1 s2
    cases hA : attempts k with
    | success r =>
      have a1 := makeRequest_success ctx1 env1 i1 attempts execTimes baseURL
        method endpoint options s1 k r hA
      have a2 := makeRequest_success ctx2 env2 i2 attempts execTimes baseURL
        method endpoint options s2 k r hA
      exact ⟨a1.1.trans a2.1.symm, a1.2.trans a2.2.symm⟩
    | failure m =>
      by_cases hcond : hasClosedSig m = true ∧ k < maxRetries
      · have a1 := makeRequest_retry ctx1 env1 i1 attempts execTimes baseURL
          method endpoint options s1 k m hA hcond.1 hcond.2
        have a2 := makeRequest_retry ctx2 env2 i2 attempts execTimes baseURL
          method endpoint options s2 k m hA hcond.1 hcond.2
        have hrec := ih (k + 1) (by omega) ctx1 ctx2 env1 env2 i1 i2 s1 s2
        constructor
        · rw [a1.1, a2.1, hrec.1]
        · rw [a1.2, a2.2, hrec.2]
      · have a1 := makeRequest_stop ctx1 env1 i1 attempts execTimes baseURL
          method endpoint options s1 k m hA hcond
        have a2 := makeRequest_stop ctx2 env2 i2 attempts execTimes baseURL
          method endpoint options s2 k m hA hcond
        exact ⟨a1.1.trans a2.1.symm, a1.2.trans a2.2.symm⟩

/-- Claim C9, confirmed: the caller-visible outcome of a request — the
raw response returned or the error thrown, the URL targeted and the
retry delays taken — is identical across any two runs of `makeRequest`
that differ only in logging configuration, environment-driven readiness
signals, INSERT success and database pool state. The logging side effect
can run, fail or be skipped without changing what the caller sees. -/
theorem claim_C9 (attempts : Nat → FetchOutcome) (execTimes : Nat → Int)
    (baseURL method endpoint : String) (options : ApiCallOptions) (k : Nat)
    (ctx1 ctx2 : ClientCtx) (env1 env2 : Env) (i1 i2 : Bool)
    (s1 s2 : DBState) :
    (ApiClientBase.makeRequest ctx1 env1 i1 attempts execTimes baseURL
      method endpoint options s1 k).result
      = (ApiClientBase.makeRequest ctx2 env2 i2 attempts execTimes baseURL
        method endpoint options s2 k).result ∧
    (ApiClientBase.makeRequest ctx1 env1 i1 attempts execTimes baseURL
      method endpoint options s1 k).delaysMs
      = (ApiClientBase.makeRequest ctx2 env2 i2 attempts execTimes baseURL
        method endpoint options s2 k).delaysMs ∧
    (ApiClientBase.makeRequest ctx1 env1 i1 attempts execTimes baseURL
      method endpoint options s1 k).url
      = (ApiClientBase.makeRequest ctx2 env2 i2 attempts execTimes baseURL
        method endpoint options s2 k).url := by
  have h := makeRequest_observables attempts execTimes baseURL method
    endpoint options (maxRetries + 1) k (by omega) ctx1 ctx2 env1 env2
    i1 i2 s1 s2
  refine ⟨h.1, h.2, ?_⟩
  rw [makeRequest_url, makeRequest_url]

/-! ## Claim C10 -/

/-- Claim C10, confirmed: a `getUsers` call with `limit = 0` (or
`skip = 0`) builds exactly the same params object, the same
`ApiCallOptions`, the same request URL and the same end-to-end request
as a call where that option was not provided at all — the truthiness
check `if (options.limit)` drops a zero just like an absent value. -/
theorem claim_C10 (baseURL : String) (limit skip : Option Int)
    (tn : Option String) (ctx : ClientCtx) (env : Env) (insertOk : Bool)
    (attempts : Nat → FetchOutcome) (execTimes : Nat → Int) (s : DBState) :
    UserClient.getUsersCall { limit := some 0, skip := skip, testName := tn }
      = UserClient.getUsersCall { limit := none, skip := skip, testName := tn } ∧
    UserClient.getUsersCall { limit := limit, skip := some 0, testName := tn }
      = UserClient.getUsersCall { limit := limit, skip := none, testName := tn } ∧
    requestUrl baseURL "/users"
      (UserClient.getUsersCall { limit := some 0, skip := skip, testName := tn })
      = requestUrl baseURL "/users"
        (UserClient.getUsersCall { limit := none, skip := skip, testName := tn }) ∧
    UserClient.getUsers ctx env insertOk attempts execTimes baseURL
      { limit := some 0, skip := skip, testName := tn } s
      = UserClient.getUsers ctx env insertOk attempts execTimes baseURL
        { limit := none, skip := skip, testName := tn } s ∧
    UserClient.getUsers ctx env insertOk attempts execTimes baseURL
      { limit := limit, skip := some 0, testName := tn } s
      = UserClient.getUsers ctx env insertOk attempts execTimes baseURL
        { limit := limit, skip := none, testName := tn } s := by
  have hp1 : UserClient.getUsersCall
      { limit := some 0, skip := skip, testName := tn }
      = UserClient.getUsersCall
        { limit := none, skip := skip, testName := tn } := by
    simp [UserClient.getUsersCall, UserClient.getUsersParams]
  have hp2 : UserClient.getUsersCall
      { limit := limit, skip := some 0, testName := tn }
      = UserClient.getUsersCall
        { limit := limit, skip := none, testName := tn } := by
    simp [UserClient.getUsersCall, UserClient.getUsersParams]
  refine ⟨hp1, hp2, by rw [hp1], ?_, ?_⟩
  · unfold UserClient.getUsers ApiClientBase.get
    rw [hp1]
  · unfold UserClient.getUsers ApiClientBase.get
    rw [hp2]
